import Mathlib

/-!
Verification of the constraint-solver core of `bevy_xpbd`/`avian`
(`src/dynamics/solver/mod.rs`), shallowly embedded over exact rationals.
Machine scalars are modelled by `ℚ`; the algebraic structure of every
computation is taken directly from the source.
-/

set_option maxHeartbeats 1000000

namespace Avian

/-- Machine scalar, modelled exactly by the rationals. -/
abbrev Scalar := ℚ

/-- Machine epsilon of the `f64` scalar type (`Scalar::EPSILON` = 2⁻⁵²). -/
def machineEpsilon : Scalar := 1 / 2 ^ 52

/-- A 3-component vector, as used for velocities, anchors and normals. -/
structure Vec3 where
  x : Scalar
  y : Scalar
  z : Scalar
deriving DecidableEq

/-- The zero vector. -/
def Vec3.zero : Vec3 := ⟨0, 0, 0⟩

/-- Componentwise addition. -/
def Vec3.add (u v : Vec3) : Vec3 := ⟨u.x + v.x, u.y + v.y, u.z + v.z⟩

/-- Componentwise subtraction. -/
def Vec3.sub (u v : Vec3) : Vec3 := ⟨u.x - v.x, u.y - v.y, u.z - v.z⟩

/-- Scalar multiplication. -/
def Vec3.smul (s : Scalar) (v : Vec3) : Vec3 := ⟨s * v.x, s * v.y, s * v.z⟩

instance : Zero Vec3 := ⟨Vec3.zero⟩

instance : Add Vec3 := ⟨Vec3.add⟩

instance : Sub Vec3 := ⟨Vec3.sub⟩

instance : SMul Scalar Vec3 := ⟨Vec3.smul⟩

/-- Dot product. -/
def Vec3.dot (u v : Vec3) : Scalar := u.x * v.x + u.y * v.y + u.z * v.z

/-- Cross product. -/
def Vec3.cross (u v : Vec3) : Vec3 :=
  ⟨u.y * v.z - u.z * v.y, u.z * v.x - u.x * v.z, u.x * v.y - u.y * v.x⟩

/-- A 3×3 matrix, stored by rows; used for world-frame inverse inertia. -/
structure Mat3 where
  row0 : Vec3
  row1 : Vec3
  row2 : Vec3
deriving DecidableEq

/-- The zero matrix. -/
def Mat3.zero : Mat3 := ⟨Vec3.zero, Vec3.zero, Vec3.zero⟩

instance : Zero Mat3 := ⟨Mat3.zero⟩

/-- Matrix–vector product. -/
def Mat3.mulVec (m : Mat3) (v : Vec3) : Vec3 :=
  ⟨m.row0.dot v, m.row1.dot v, m.row2.dot v⟩

/-! ## Solver configuration (`SolverConfig`) -/

/-- `SolverConfig`: user-tunable solver parameters (mod.rs lines 263–336). -/
structure SolverConfig where
  contact_damping_ratio : Scalar
  contact_frequency_factor : Scalar
  max_overlap_solve_speed : Scalar
  warm_start_coefficient : Scalar
  restitution_threshold : Scalar
  restitution_iterations : Nat
deriving DecidableEq

/-- `Default for SolverConfig` (mod.rs lines 338–349). -/
def SolverConfig.default : SolverConfig where
  contact_damping_ratio := 10
  contact_frequency_factor := 3 / 2
  max_overlap_solve_speed := 4
  warm_start_coefficient := 1
  restitution_threshold := 1
  restitution_iterations := 1

/-! ## Softness model -/

/-- `SoftnessParameters`: a damping ratio and a frequency in hertz. -/
structure SoftnessParameters where
  damping_ratio : Scalar
  frequency : Scalar
deriving DecidableEq

/-- Modelled from the spec: the file `softness_parameters.rs` is not among the
provided sources. The spec states only that `compute_coefficients` converts
(damping ratio, frequency, substep time) into soft-constraint coefficients,
without fixing a closed formula, so coefficients are represented by their
defining inputs: the parameters used and the substep time `h` passed. -/
structure SoftnessCoefficients where
  params : SoftnessParameters
  h : Scalar
deriving DecidableEq

/-- Modelled from the spec: `SoftnessParameters::compute_coefficients(h)`
records which parameters and substep time the coefficients were derived from. -/
def SoftnessParameters.compute_coefficients (p : SoftnessParameters) (h : Scalar) :
    SoftnessCoefficients :=
  ⟨p, h⟩

/-- `ContactSoftnessCoefficients`: dynamic and non-dynamic contact softness. -/
structure ContactSoftnessCoefficients where
  dynamic : SoftnessCoefficients
  non_dynamic : SoftnessCoefficients
deriving DecidableEq

/-- The contact frequency `hz` computed by `update_contact_softness`
(mod.rs lines 383–386): `contact_frequency_factor * min(1/(dt*2), 0.25/h)`. -/
def contact_hz (config : SolverConfig) (dt h : Scalar) : Scalar :=
  let max_hz := 1 / (dt * 2)
  config.contact_frequency_factor * min max_hz (1 / 4 / h)

/-- `update_contact_softness` (mod.rs lines 373–397), restricted to the
recompute branch: builds the dynamic coefficients from `hz` and the
non-dynamic coefficients from `2 * hz`, both with the configured damping
ratio and the substep time `h`. -/
def update_contact_softness (config : SolverConfig) (dt h : Scalar) :
    ContactSoftnessCoefficients :=
  let hz := contact_hz config dt h
  { dynamic :=
      (SoftnessParameters.mk config.contact_damping_ratio hz).compute_coefficients h
    non_dynamic :=
      (SoftnessParameters.mk config.contact_damping_ratio (2 * hz)).compute_coefficients h }

/-! ## Solver bodies -/

/-- `SolverBody`: compact per-body mutable solver state. The quaternion
`delta_rotation` is represented by its rotation vector, which is all the
embedded operations read (the spec's `r + delta_rot × r0` approximation). -/
structure SolverBody where
  linear_velocity : Vec3
  angular_velocity : Vec3
  delta_position : Vec3
  delta_rotation : Vec3
deriving DecidableEq

/-- `SolverBody::default()`: zero velocities and deltas. -/
def SolverBody.default : SolverBody := ⟨0, 0, 0, 0⟩

/-- `SolverBodyInertia`: per-substep inverse mass and world-frame inverse
inertia. Non-dynamic bodies hold zeroes. -/
structure SolverBodyInertia where
  inv_mass : Scalar
  inv_inertia : Mat3
deriving DecidableEq

/-- `SolverBodyInertia::default()`: the zero dummy inertia used for missing,
non-dynamic, and dominance-excluded bodies. -/
def SolverBodyInertia.default : SolverBodyInertia := ⟨0, 0⟩

/-- Applies an impulse `p` at world anchors `r1`, `r2` to the body pair:
negatively to body 1 and positively to body 2, each through its inverse
mass and inverse inertia. Modelled from the spec (§4.4, §4.5): all contact
velocity updates go through this operation. -/
def applyImpulse (i1 i2 : SolverBodyInertia) (r1 r2 p : Vec3)
    (bs : SolverBody × SolverBody) : SolverBody × SolverBody :=
  ({ bs.1 with
      linear_velocity := bs.1.linear_velocity - i1.inv_mass • p
      angular_velocity := bs.1.angular_velocity - i1.inv_inertia.mulVec (Vec3.cross r1 p) },
   { bs.2 with
      linear_velocity := bs.2.linear_velocity + i2.inv_mass • p
      angular_velocity := bs.2.angular_velocity + i2.inv_inertia.mulVec (Vec3.cross r2 p) })

/-- Relative velocity at the contact: `(v2 + ω2×r2) − (v1 + ω1×r1)`. -/
def relativeVelocity (bs : SolverBody × SolverBody) (r1 r2 : Vec3) : Vec3 :=
  (bs.2.linear_velocity + Vec3.cross bs.2.angular_velocity r2) -
    (bs.1.linear_velocity + Vec3.cross bs.1.angular_velocity r1)

/-! ## Contact constraints -/

/-- The normal part of a contact constraint point: accumulated impulse and
normal effective mass `m_n`. -/
structure ContactNormalPart where
  impulse : Scalar
  effective_mass : Scalar
deriving DecidableEq

/-- The optional tangent (friction) part of a contact constraint point:
accumulated impulses and effective masses along the two tangents. -/
structure ContactTangentPart where
  impulse1 : Scalar
  impulse2 : Scalar
  effective_mass1 : Scalar
  effective_mass2 : Scalar
deriving DecidableEq

/-- A single prepared contact point of a `ContactConstraint`. -/
structure ContactConstraintPoint where
  anchor1 : Vec3
  anchor2 : Vec3
  separation : Scalar
  pre_step_normal_speed : Scalar
  normal_part : ContactNormalPart
  tangent_part : Option ContactTangentPart
deriving DecidableEq

/-- `ContactConstraint`: a prepared per-manifold constraint. The softness
coefficients (`bias_coefficient` β, `impulse_coefficient` γ) are stored per
constraint as the spec's data model prescribes, and `fallback_tangent1/2`
is the arbitrary orthonormal tangent basis generator used when the relative
tangential velocity is degenerate. -/
structure ContactConstraint where
  collider1 : Nat
  collider2 : Nat
  body1 : Nat
  body2 : Nat
  manifold_index : Nat
  relative_dominance : Int
  normal : Vec3
  friction : Scalar
  restitution : Scalar
  bias_coefficient : Scalar
  impulse_coefficient : Scalar
  fallback_tangent1 : Vec3
  fallback_tangent2 : Vec3
  points : List ContactConstraintPoint
deriving DecidableEq

/-- Modelled from the spec (§4.6): tangent basis selection. The primary
tangent is along the tangential projection of the relative velocity when it
is nonzero, with the secondary tangent `normal × primary`; otherwise the
constraint's arbitrary stored basis is used. (The spec leaves the
degenerate choice free and fixes only directions, so the basis is kept
unnormalized.) -/
def pointTangents (normal t1 t2 v_rel : Vec3) : Vec3 × Vec3 :=
  let vt := v_rel - Vec3.dot v_rel normal • normal
  if vt = 0 then (t1, t2) else (vt, Vec3.cross normal vt)

/-- Modelled from the spec (§4.6): `ContactConstraint::tangent_directions`,
called by `warm_start` (mod.rs line 442) with the bodies' linear velocities. -/
def ContactConstraint.tangent_directions (c : ContactConstraint) (v1 v2 : Vec3) :
    Vec3 × Vec3 :=
  pointTangents c.normal c.fallback_tangent1 c.fallback_tangent2 (v2 - v1)

/-- Modelled from the spec (§4.4): warm starting one contact point. The
total stored impulse, scaled by the warm-start coefficient, is applied to
both bodies through their inverse inertias. `contact.rs` is not among the
provided sources. -/
def warmStartPoint (normal : Vec3) (t : Vec3 × Vec3) (coefficient : Scalar)
    (i1 i2 : SolverBodyInertia) (bs : SolverBody × SolverBody)
    (p : ContactConstraintPoint) : SolverBody × SolverBody :=
  let pn := coefficient • (p.normal_part.impulse • normal)
  let pt :=
    match p.tangent_part with
    | none => (0 : Vec3)
    | some tp => coefficient • (tp.impulse1 • t.1 + tp.impulse2 • t.2)
  applyImpulse i1 i2 p.anchor1 p.anchor2 (pn + pt) bs

/-- Modelled from the spec (§4.4): `ContactConstraint::warm_start` applies
the warm-start impulses of every point in order. -/
def ContactConstraint.warm_start (c : ContactConstraint) (b1 b2 : SolverBody)
    (i1 i2 : SolverBodyInertia) (t : Vec3 × Vec3) (coefficient : Scalar) :
    SolverBody × SolverBody :=
  c.points.foldl (warmStartPoint c.normal t coefficient i1 i2) (b1, b2)

/-- Modelled from the spec (§4.5): solving one contact point. The normal
impulse is computed with the softness bias and soft subtraction (biased
pass) or hard with zero bias (relaxation pass), clamped one-sided; the two
friction impulses follow, each clamped by the Coulomb cone. -/
def solvePoint (c : ContactConstraint) (i1 i2 : SolverBodyInertia)
    (useBias : Bool) (h maxSpeed : Scalar) (bs : SolverBody × SolverBody)
    (p : ContactConstraintPoint) :
    (SolverBody × SolverBody) × ContactConstraintPoint :=
  let r1 := p.anchor1 + Vec3.cross bs.1.delta_rotation p.anchor1
  let r2 := p.anchor2 + Vec3.cross bs.2.delta_rotation p.anchor2
  let v_rel := relativeVelocity bs r1 r2
  let bias :=
    if useBias then c.bias_coefficient * min (p.separation + maxSpeed * h) 0 / h else 0
  let gamma := if useBias then c.impulse_coefficient else 0
  let dv := -(Vec3.dot v_rel c.normal + bias)
  let lam := p.normal_part.effective_mass * dv - gamma * p.normal_part.impulse
  let newNormal := max 0 (p.normal_part.impulse + lam)
  let applied := newNormal - p.normal_part.impulse
  let bs1 := applyImpulse i1 i2 r1 r2 (applied • c.normal) bs
  match p.tangent_part with
  | none =>
    (bs1, { p with normal_part := { p.normal_part with impulse := newNormal } })
  | some tp =>
    let t := pointTangents c.normal c.fallback_tangent1 c.fallback_tangent2 v_rel
    let bound := c.friction * newNormal
    let vRel1 := relativeVelocity bs1 r1 r2
    let lamT1 := -(tp.effective_mass1 * Vec3.dot vRel1 t.1)
    let newT1 := min bound (max (-bound) (tp.impulse1 + lamT1))
    let bs2 := applyImpulse i1 i2 r1 r2 ((newT1 - tp.impulse1) • t.1) bs1
    let vRel2 := relativeVelocity bs2 r1 r2
    let lamT2 := -(tp.effective_mass2 * Vec3.dot vRel2 t.2)
    let newT2 := min bound (max (-bound) (tp.impulse2 + lamT2))
    let bs3 := applyImpulse i1 i2 r1 r2 ((newT2 - tp.impulse2) • t.2) bs2
    (bs3,
     { p with
        normal_part := { p.normal_part with impulse := newNormal }
        tangent_part := some { tp with impulse1 := newT1, impulse2 := newT2 } })

/-- Sequential (block Gauss–Seidel) solve over a list of contact points. -/
def solvePoints (c : ContactConstraint) (i1 i2 : SolverBodyInertia)
    (useBias : Bool) (h maxSpeed : Scalar) :
    SolverBody × SolverBody → List ContactConstraintPoint →
    (SolverBody × SolverBody) × List ContactConstraintPoint
  | bs, [] => (bs, [])
  | bs, p :: ps =>
    let r := solvePoint c i1 i2 useBias h maxSpeed bs p
    let rest := solvePoints c i1 i2 useBias h maxSpeed r.1 ps
    (rest.1, r.2 :: rest.2)

/-- Modelled from the spec (§4.5): `ContactConstraint::solve`, one pass over
all contact points, biased or relaxing. -/
def ContactConstraint.solve (c : ContactConstraint) (b1 b2 : SolverBody)
    (i1 i2 : SolverBodyInertia) (h : Scalar) (useBias : Bool) (maxSpeed : Scalar) :
    (SolverBody × SolverBody) × ContactConstraint :=
  let r := solvePoints c i1 i2 useBias h maxSpeed (b1, b2) c.points
  (r.1, { c with points := r.2 })

/-- Modelled from the spec (§4.10): restitution at one contact point. When
the pre-step approach speed exceeded the threshold, a normal impulse
`−restitution · pre_v_rel_n · m_n` is added, clamped so the accumulated
normal impulse stays nonnegative. -/
def applyRestitutionPoint (normal : Vec3) (restitution : Scalar)
    (i1 i2 : SolverBodyInertia) (threshold : Scalar)
    (bs : SolverBody × SolverBody) (p : ContactConstraintPoint) :
    (SolverBody × SolverBody) × ContactConstraintPoint :=
  if -p.pre_step_normal_speed ≤ threshold then (bs, p)
  else
    let lam := -(restitution * p.pre_step_normal_speed * p.normal_part.effective_mass)
    let newImpulse := max 0 (p.normal_part.impulse + lam)
    let applied := newImpulse - p.normal_part.impulse
    (applyImpulse i1 i2 p.anchor1 p.anchor2 (applied • normal) bs,
     { p with normal_part := { p.normal_part with impulse := newImpulse } })

/-- Restitution over a list of contact points. -/
def restitutionPoints (normal : Vec3) (restitution : Scalar)
    (i1 i2 : SolverBodyInertia) (threshold : Scalar) :
    SolverBody × SolverBody → List ContactConstraintPoint →
    (SolverBody × SolverBody) × List ContactConstraintPoint
  | bs, [] => (bs, [])
  | bs, p :: ps =>
    let r := applyRestitutionPoint normal restitution i1 i2 threshold bs p
    let rest := restitutionPoints normal restitution i1 i2 threshold r.1 ps
    (rest.1, r.2 :: rest.2)

/-- Modelled from the spec (§4.10): `ContactConstraint::apply_restitution`,
one restitution iteration over all contact points. -/
def ContactConstraint.apply_restitution (c : ContactConstraint)
    (bs : SolverBody × SolverBody) (i1 i2 : SolverBodyInertia)
    (threshold : Scalar) : (SolverBody × SolverBody) × ContactConstraint :=
  let r := restitutionPoints c.normal c.restitution i1 i2 threshold bs c.points
  (r.1, { c with points := r.2 })

/-! ## Solver systems (`mod.rs`) -/

/-- The dominance adjustment shared by `warm_start`, `solve_contacts` and
`solve_restitution` (mod.rs lines 434–439, 504–509, 574–579): a body with
higher dominance has its inertia replaced by the zero dummy inertia. -/
def adjustInertias (relative_dominance : Int) (i1 i2 : SolverBodyInertia) :
    SolverBodyInertia × SolverBodyInertia :=
  if 0 < relative_dominance then (SolverBodyInertia.default, i2)
  else if relative_dominance < 0 then (i1, SolverBodyInertia.default)
  else (i1, i2)

/-- The coefficient `warm_start` passes to `ContactConstraint::warm_start`
(mod.rs line 452): `solver_config.warm_start_coefficient`, unmodified. -/
def warmStartAppliedCoefficient (config : SolverConfig) : Scalar :=
  config.warm_start_coefficient

/-- The per-constraint body of the `warm_start` system (mod.rs lines
418–454): dominance-adjust the inertias, pick the tangent directions from
the bodies' linear velocities, and warm start the constraint. -/
def warmStartSystem (config : SolverConfig) (b1 b2 : SolverBody)
    (i1 i2 : SolverBodyInertia) (c : ContactConstraint) :
    SolverBody × SolverBody :=
  let i := adjustInertias c.relative_dominance i1 i2
  let t := c.tangent_directions b1.linear_velocity b2.linear_velocity
  c.warm_start b1 b2 i.1 i.2 t (warmStartAppliedCoefficient config)

/-- The per-constraint body of the `solve_contacts::<USE_BIAS>` system
(mod.rs lines 483–519): dominance-adjust the inertias and solve the
constraint with `max_overlap_solve_speed` scaled by the length unit. -/
def solveContactsSystem (useBias : Bool) (config : SolverConfig)
    (length_unit h : Scalar) (b1 b2 : SolverBody)
    (i1 i2 : SolverBodyInertia) (c : ContactConstraint) :
    (SolverBody × SolverBody) × ContactConstraint :=
  let maxSpeed := config.max_overlap_solve_speed * length_unit
  let i := adjustInertias c.relative_dominance i1 i2
  c.solve b1 b2 i.1 i.2 h useBias maxSpeed

/-- The per-constraint body of the `solve_restitution` system (mod.rs lines
554–592): constraints with zero restitution are skipped; otherwise the
inertias are dominance-adjusted and `apply_restitution` runs
`restitution_iterations` times for multi-point constraints and once for a
single point. -/
def solveRestitutionSystem (config : SolverConfig) (length_unit : Scalar)
    (b1 b2 : SolverBody) (i1 i2 : SolverBodyInertia) (c : ContactConstraint) :
    (SolverBody × SolverBody) × ContactConstraint :=
  let threshold := config.restitution_threshold * length_unit
  if c.restitution = 0 then ((b1, b2), c)
  else
    let i := adjustInertias c.relative_dominance i1 i2
    let iters := if 1 < c.points.length then config.restitution_iterations else 1
    (fun s => s.2.apply_restitution s.1 i.1 i.2 threshold)^[iters] ((b1, b2), c)

/-! ## Storing contact impulses (`store_contact_impulses`) -/

/-- A contact point of a manifold in the contact graph. -/
structure ContactPoint where
  normal_impulse : Scalar
  tangent_impulse : Scalar × Scalar
deriving DecidableEq

/-- A contact manifold in the contact graph. -/
structure ContactManifold where
  points : List ContactPoint
deriving DecidableEq

/-- The accumulated tangent impulse of a constraint point, as
`store_contact_impulses` reads it (mod.rs lines 620–623):
`tangent_part.as_ref().map_or(default(), |part| part.impulse)`. -/
def ContactConstraintPoint.accumulatedTangentImpulse (p : ContactConstraintPoint) :
    Scalar × Scalar :=
  match p.tangent_part with
  | none => (0, 0)
  | some tp => (tp.impulse1, tp.impulse2)

/-- The zipped write-back loop of `store_contact_impulses` (mod.rs lines
617–624): each manifold point paired with a constraint point receives the
constraint point's accumulated impulses; manifold points beyond the zipped
range are left unchanged, exactly as in-place iteration over a `zip` does. -/
def storePoints : List ContactPoint → List ContactConstraintPoint → List ContactPoint
  | [], _ => []
  | ms, [] => ms
  | m :: ms, cp :: cps =>
    { m with
        normal_impulse := cp.normal_part.impulse
        tangent_impulse := cp.accumulatedTangentImpulse } :: storePoints ms cps

/-- The per-constraint body of `store_contact_impulses` (mod.rs lines
606–625), acting on the manifold resolved for the constraint. -/
def storeContactImpulsesManifold (c : ContactConstraint) (m : ContactManifold) :
    ContactManifold :=
  { m with points := storePoints m.points c.points }

/-! ## Joint damping (`joint_damping`) -/

/-- The per-body state read and written by `joint_damping`: rigid-body kind
(dynamic or not), velocities, inverse mass (`ComputedMass::inverse`), and
the optional `Dominance` component. -/
structure JointBody where
  dynamic : Bool
  lin_vel : Vec3
  ang_vel : Vec3
  inv_mass : Scalar
  dominance : Option Int
deriving DecidableEq

/-- The damping coefficients of a joint (`Joint::damping_linear` and
`Joint::damping_angular`). -/
structure JointDamping where
  damping_linear : Scalar
  damping_angular : Scalar
deriving DecidableEq

/-- The per-joint body of the `joint_damping` system (mod.rs lines 648–695):
angular velocities are damped toward each other first (guarded only by the
dynamic flags), then the linear update is skipped when the combined inverse
mass is at most `Scalar::EPSILON`, and otherwise applied guarded by the
dynamic flags and dominance. -/
def jointDamping (joint : JointDamping) (delta_secs : Scalar)
    (b1 b2 : JointBody) : JointBody × JointBody :=
  let delta_omega := min (joint.damping_angular * delta_secs) 1 • (b2.ang_vel - b1.ang_vel)
  let av1 := if b1.dynamic then b1.ang_vel + delta_omega else b1.ang_vel
  let av2 := if b2.dynamic then b2.ang_vel - delta_omega else b2.ang_vel
  let delta_v := min (joint.damping_linear * delta_secs) 1 • (b2.lin_vel - b1.lin_vel)
  let w1 := if b1.dynamic then b1.inv_mass else 0
  let w2 := if b2.dynamic then b2.inv_mass else 0
  if w1 + w2 ≤ machineEpsilon then
    ({ b1 with ang_vel := av1 }, { b2 with ang_vel := av2 })
  else
    let p := (1 / (w1 + w2)) • delta_v
    let d1 := b1.dominance.getD 0
    let d2 := b2.dominance.getD 0
    let lv1 :=
      if b1.dynamic ∧ (b2.dynamic = false ∨ d1 ≤ d2) then b1.lin_vel + b1.inv_mass • p
      else b1.lin_vel
    let lv2 :=
      if b2.dynamic ∧ (b1.dynamic = false ∨ d2 ≤ d1) then b2.lin_vel - b2.inv_mass • p
      else b2.lin_vel
    ({ b1 with ang_vel := av1, lin_vel := lv1 },
     { b2 with ang_vel := av2, lin_vel := lv2 })

/-! ## Plugin build: length unit and system ordering -/

/-- The `PhysicsLengthUnit` handling of `SolverPlugin::build` (mod.rs lines
101–107): the plugin's length unit is inserted when the resource is absent
or currently equals `1.0`; any other existing value is preserved. -/
def lengthUnitAfterBuild (existing : Option Scalar) (plugin_unit : Scalar) :
    Option Scalar :=
  if existing = none ∨ existing = some 1 then some plugin_unit else existing

/-- The concrete joint types of the solver. -/
inductive JointKind where
  | fixed
  | revolute
  | spherical
  | prismatic
  | distance
deriving DecidableEq

/-- The systems `SolverPlugin::build` adds to the substep schedule for the
XPBD joint phase and the velocity-projection phase. -/
inductive SubstepSystem where
  | preSolveDeltaSnapshot
  | solveXpbdJoint (k : JointKind)
  | projectLinearVelocity
  | projectAngularVelocity
  | jointDampingSystem (k : JointKind)
deriving DecidableEq

/-- The chained systems of `SubstepSolverSet::SolveXpbdConstraints`
(mod.rs lines 154–181), in the order `build` chains them. -/
def solveXpbdConstraintsSystems : List SubstepSystem :=
  [.preSolveDeltaSnapshot,
   .solveXpbdJoint .fixed,
   .solveXpbdJoint .revolute,
   .solveXpbdJoint .spherical,
   .solveXpbdJoint .prismatic,
   .solveXpbdJoint .distance]

/-- The chained systems of `SubstepSolverSet::XpbdVelocityProjection`
(mod.rs lines 184–197), in the order `build` chains them. -/
def xpbdVelocityProjectionSystems : List SubstepSystem :=
  [.projectLinearVelocity,
   .projectAngularVelocity,
   .jointDampingSystem .fixed,
   .jointDampingSystem .revolute,
   .jointDampingSystem .spherical,
   .jointDampingSystem .prismatic,
   .jointDampingSystem .distance]

/-- The joint-related substep systems in execution order. The order inside
each set is embedded from the `chain()`ed tuples in `SolverPlugin::build`;
that `SolveXpbdConstraints` runs before `XpbdVelocityProjection` is
modelled from the spec's ordering guarantees (`schedule.rs` is not among
the provided sources). -/
def substepJointPhaseSystems : List SubstepSystem :=
  solveXpbdConstraintsSystems ++ xpbdVelocityProjectionSystems

/-- The position of a system in the substep joint phase. -/
def substepIndex (s : SubstepSystem) : Nat :=
  substepJointPhaseSystems.findIdx (· = s)

/-- The top-level phases of one physics step touched by the solver plugin. -/
inductive PhysicsPhase where
  | prepareSolverBodies
  | prepareJoints
  | substepLoop
  | restitution
  | finalize
  | storeContactImpulsesPhase
deriving DecidableEq

/-- The physics-step phases in execution order. Modelled from the spec's
ordering guarantees together with the step list documented on
`SolverPlugin` (mod.rs lines 53–71); the `SolverSet` ordering itself lives
in `schedule.rs`, which is not among the provided sources. -/
def physicsStepPhases : List PhysicsPhase :=
  [.prepareSolverBodies, .prepareJoints, .substepLoop, .restitution,
   .finalize, .storeContactImpulsesPhase]

/-! ## Concrete example values used by witnesses and counterexamples -/

/-- A dynamic-body inertia: unit inverse mass, zero inverse inertia. -/
def exampleDynInertia : SolverBodyInertia := ⟨1, Mat3.zero⟩

/-- A one-point contact constraint with a warm-start normal impulse of 1. -/
def exampleWarmConstraint : ContactConstraint where
  collider1 := 0
  collider2 := 1
  body1 := 0
  body2 := 1
  manifold_index := 0
  relative_dominance := 0
  normal := ⟨1, 0, 0⟩
  friction := 0
  restitution := 0
  bias_coefficient := 0
  impulse_coefficient := 0
  fallback_tangent1 := ⟨0, 1, 0⟩
  fallback_tangent2 := ⟨0, 0, 1⟩
  points :=
    [{ anchor1 := Vec3.zero
       anchor2 := Vec3.zero
       separation := 0
       pre_step_normal_speed := 0
       normal_part := ⟨1, 1⟩
       tangent_part := none }]

/-- A one-point contact constraint with restitution `−1`, an accumulated
normal impulse of 5, and a pre-step approach speed of 10. -/
def exampleNegRestitutionConstraint : ContactConstraint :=
  { exampleWarmConstraint with
      restitution := -1
      points :=
        [{ anchor1 := Vec3.zero
           anchor2 := Vec3.zero
           separation := 0
           pre_step_normal_speed := -10
           normal_part := ⟨5, 1⟩
           tangent_part := none }] }

/-- A one-point manifold with stale impulses, for the store-impulses witness. -/
def exampleManifold : ContactManifold :=
  ⟨[{ normal_impulse := 7, tangent_impulse := (3, 4) }]⟩

/-! ## Helper lemmas -/

theorem Vec3.zero_eq : (0 : Vec3) = Vec3.zero := rfl

theorem Vec3.smul_zero_left (v : Vec3) : (0 : Scalar) • v = Vec3.zero := by
  show Vec3.smul 0 v = Vec3.zero
  simp [Vec3.smul, Vec3.zero]

theorem Vec3.dot_zero_left (v : Vec3) : Vec3.dot Vec3.zero v = 0 := by
  simp [Vec3.dot, Vec3.zero]

theorem Mat3.zero_mat_eq : (0 : Mat3) = Mat3.zero := rfl

theorem Mat3.mulVec_zero_left (v : Vec3) : Mat3.mulVec Mat3.zero v = Vec3.zero := by
  simp [Mat3.mulVec, Mat3.zero, Vec3.dot, Vec3.zero]

theorem Vec3.sub_zero_vec (v : Vec3) : v - Vec3.zero = v := by
  show Vec3.sub v Vec3.zero = v
  cases v
  simp [Vec3.sub, Vec3.zero]

theorem Vec3.add_zero_vec (v : Vec3) : v + Vec3.zero = v := by
  show Vec3.add v Vec3.zero = v
  cases v
  simp [Vec3.add, Vec3.zero]

theorem applyImpulse_fst_default (i2 : SolverBodyInertia) (r1 r2 p : Vec3)
    (bs : SolverBody × SolverBody) :
    (applyImpulse SolverBodyInertia.default i2 r1 r2 p bs).1 = bs.1 := by
  simp [applyImpulse, SolverBodyInertia.default, Vec3.smul_zero_left,
    Mat3.zero_mat_eq, Mat3.mulVec_zero_left, Vec3.sub_zero_vec]

theorem applyImpulse_snd_default (i1 : SolverBodyInertia) (r1 r2 p : Vec3)
    (bs : SolverBody × SolverBody) :
    (applyImpulse i1 SolverBodyInertia.default r1 r2 p bs).2 = bs.2 := by
  simp [applyImpulse, SolverBodyInertia.default, Vec3.smul_zero_left,
    Mat3.zero_mat_eq, Mat3.mulVec_zero_left, Vec3.add_zero_vec]

theorem warmStartPoint_fst_default (normal : Vec3) (t : Vec3 × Vec3)
    (coefficient : Scalar) (i2 : SolverBodyInertia) (bs : SolverBody × SolverBody)
    (p : ContactConstraintPoint) :
    (warmStartPoint normal t coefficient SolverBodyInertia.default i2 bs p).1 = bs.1 := by
  simp only [warmStartPoint]
  rw [applyImpulse_fst_default]

theorem warmStartPoint_snd_default (normal : Vec3) (t : Vec3 × Vec3)
    (coefficient : Scalar) (i1 : SolverBodyInertia) (bs : SolverBody × SolverBody)
    (p : ContactConstraintPoint) :
    (warmStartPoint normal t coefficient i1 SolverBodyInertia.default bs p).2 = bs.2 := by
  simp only [warmStartPoint]
  rw [applyImpulse_snd_default]

theorem foldl_fst_fixed {α : Type} (f : SolverBody × SolverBody → α → SolverBody × SolverBody)
    (hf : ∀ bs a, (f bs a).1 = bs.1) :
    ∀ (l : List α) (bs : SolverBody × SolverBody), (l.foldl f bs).1 = bs.1 := by
  intro l
  induction l with
  | nil => intro bs; rfl
  | cons a l ih => intro bs; rw [List.foldl_cons, ih, hf]

theorem foldl_snd_fixed {α : Type} (f : SolverBody × SolverBody → α → SolverBody × SolverBody)
    (hf : ∀ bs a, (f bs a).2 = bs.2) :
    ∀ (l : List α) (bs : SolverBody × SolverBody), (l.foldl f bs).2 = bs.2 := by
  intro l
  induction l with
  | nil => intro bs; rfl
  | cons a l ih => intro bs; rw [List.foldl_cons, ih, hf]

theorem warm_start_fst_default (c : ContactConstraint) (b1 b2 : SolverBody)
    (i2 : SolverBodyInertia) (t : Vec3 × Vec3) (coefficient : Scalar) :
    (c.warm_start b1 b2 SolverBodyInertia.default i2 t coefficient).1 = b1 := by
  simp only [ContactConstraint.warm_start]
  exact foldl_fst_fixed _ (fun bs p => warmStartPoint_fst_default _ _ _ _ bs p) c.points (b1, b2)

theorem warm_start_snd_default (c : ContactConstraint) (b1 b2 : SolverBody)
    (i1 : SolverBodyInertia) (t : Vec3 × Vec3) (coefficient : Scalar) :
    (c.warm_start b1 b2 i1 SolverBodyInertia.default t coefficient).2 = b2 := by
  simp only [ContactConstraint.warm_start]
  exact foldl_snd_fixed _ (fun bs p => warmStartPoint_snd_default _ _ _ _ bs p) c.points (b1, b2)

theorem solvePoint_fst_default (c : ContactConstraint) (i2 : SolverBodyInertia)
    (useBias : Bool) (h maxSpeed : Scalar) (bs : SolverBody × SolverBody)
    (p : ContactConstraintPoint) :
    (solvePoint c SolverBodyInertia.default i2 useBias h maxSpeed bs p).1.1 = bs.1 := by
  cases htp : p.tangent_part with
  | none => simp only [solvePoint, htp]; rw [applyImpulse_fst_default]
  | some tp =>
    simp only [solvePoint, htp]
    rw [applyImpulse_fst_default, applyImpulse_fst_default, applyImpulse_fst_default]

theorem solvePoint_snd_default (c : ContactConstraint) (i1 : SolverBodyInertia)
    (useBias : Bool) (h maxSpeed : Scalar) (bs : SolverBody × SolverBody)
    (p : ContactConstraintPoint) :
    (solvePoint c i1 SolverBodyInertia.default useBias h maxSpeed bs p).1.2 = bs.2 := by
  cases htp : p.tangent_part with
  | none => simp only [solvePoint, htp]; rw [applyImpulse_snd_default]
  | some tp =>
    simp only [solvePoint, htp]
    rw [applyImpulse_snd_default, applyImpulse_snd_default, applyImpulse_snd_default]

theorem solvePoints_fst_default (c : ContactConstraint) (i2 : SolverBodyInertia)
    (useBias : Bool) (h maxSpeed : Scalar) :
    ∀ (ps : List ContactConstraintPoint) (bs : SolverBody × SolverBody),
      (solvePoints c SolverBodyInertia.default i2 useBias h maxSpeed bs ps).1.1 = bs.1 := by
  intro ps
  induction ps with
  | nil => intro bs; rfl
  | cons p ps ih =>
    intro bs
    simp only [solvePoints]
    rw [ih, solvePoint_fst_default]

theorem solvePoints_snd_default (c : ContactConstraint) (i1 : SolverBodyInertia)
    (useBias : Bool) (h maxSpeed : Scalar) :
    ∀ (ps : List ContactConstraintPoint) (bs : SolverBody × SolverBody),
      (solvePoints c i1 SolverBodyInertia.default useBias h maxSpeed bs ps).1.2 = bs.2 := by
  intro ps
  induction ps with
  | nil => intro bs; rfl
  | cons p ps ih =>
    intro bs
    simp only [solvePoints]
    rw [ih, solvePoint_snd_default]

theorem solve_fst_default (c : ContactConstraint) (b1 b2 : SolverBody)
    (i2 : SolverBodyInertia) (h : Scalar) (useBias : Bool) (maxSpeed : Scalar) :
    (c.solve b1 b2 SolverBodyInertia.default i2 h useBias maxSpeed).1.1 = b1 := by
  simp only [ContactConstraint.solve]
  exact solvePoints_fst_default c i2 useBias h maxSpeed c.points (b1, b2)

theorem solve_snd_default (c : ContactConstraint) (b1 b2 : SolverBody)
    (i1 : SolverBodyInertia) (h : Scalar) (useBias : Bool) (maxSpeed : Scalar) :
    (c.solve b1 b2 i1 SolverBodyInertia.default h useBias maxSpeed).1.2 = b2 := by
  simp only [ContactConstraint.solve]
  exact solvePoints_snd_default c i1 useBias h maxSpeed c.points (b1, b2)

theorem applyRestitutionPoint_fst_default (normal : Vec3) (restitution : Scalar)
    (i2 : SolverBodyInertia) (threshold : Scalar) (bs : SolverBody × SolverBody)
    (p : ContactConstraintPoint) :
    (applyRestitutionPoint normal restitution SolverBodyInertia.default i2 threshold bs p).1.1 =
      bs.1 := by
  unfold applyRestitutionPoint
  split
  · rfl
  · simp only
    rw [applyImpulse_fst_default]

theorem applyRestitutionPoint_snd_default (normal : Vec3) (restitution : Scalar)
    (i1 : SolverBodyInertia) (threshold : Scalar) (bs : SolverBody × SolverBody)
    (p : ContactConstraintPoint) :
    (applyRestitutionPoint normal restitution i1 SolverBodyInertia.default threshold bs p).1.2 =
      bs.2 := by
  unfold applyRestitutionPoint
  split
  · rfl
  · simp only
    rw [applyImpulse_snd_default]

theorem restitutionPoints_fst_default (normal : Vec3) (restitution : Scalar)
    (i2 : SolverBodyInertia) (threshold : Scalar) :
    ∀ (ps : List ContactConstraintPoint) (bs : SolverBody × SolverBody),
      (restitutionPoints normal restitution SolverBodyInertia.default i2 threshold bs ps).1.1 =
        bs.1 := by
  intro ps
  induction ps with
  | nil => intro bs; rfl
  | cons p ps ih =>
    intro bs
    simp only [restitutionPoints]
    rw [ih, applyRestitutionPoint_fst_default]

theorem restitutionPoints_snd_default (normal : Vec3) (restitution : Scalar)
    (i1 : SolverBodyInertia) (threshold : Scalar) :
    ∀ (ps : List ContactConstraintPoint) (bs : SolverBody × SolverBody),
      (restitutionPoints normal restitution i1 SolverBodyInertia.default threshold bs ps).1.2 =
        bs.2 := by
  intro ps
  induction ps with
  | nil => intro bs; rfl
  | cons p ps ih =>
    intro bs
    simp only [restitutionPoints]
    rw [ih, applyRestitutionPoint_snd_default]

theorem apply_restitution_fst_default (c : ContactConstraint)
    (bs : SolverBody × SolverBody) (i2 : SolverBodyInertia) (threshold : Scalar) :
    (c.apply_restitution bs SolverBodyInertia.default i2 threshold).1.1 = bs.1 := by
  simp only [ContactConstraint.apply_restitution]
  exact restitutionPoints_fst_default c.normal c.restitution i2 threshold c.points bs

theorem apply_restitution_snd_default (c : ContactConstraint)
    (bs : SolverBody × SolverBody) (i1 : SolverBodyInertia) (threshold : Scalar) :
    (c.apply_restitution bs i1 SolverBodyInertia.default threshold).1.2 = bs.2 := by
  simp only [ContactConstraint.apply_restitution]
  exact restitutionPoints_snd_default c.normal c.restitution i1 threshold c.points bs

theorem restitution_iterate_fst_default (i2 : SolverBodyInertia) (threshold : Scalar)
    (n : Nat) (s : (SolverBody × SolverBody) × ContactConstraint) :
    ((fun s => s.2.apply_restitution s.1 SolverBodyInertia.default i2 threshold)^[n] s).1.1 =
      s.1.1 := by
  induction n generalizing s with
  | zero => rfl
  | succ n ih =>
    rw [Function.iterate_succ_apply, ih]
    exact apply_restitution_fst_default _ _ _ _

theorem restitution_iterate_snd_default (i1 : SolverBodyInertia) (threshold : Scalar)
    (n : Nat) (s : (SolverBody × SolverBody) × ContactConstraint) :
    ((fun s => s.2.apply_restitution s.1 i1 SolverBodyInertia.default threshold)^[n] s).1.2 =
      s.1.2 := by
  induction n generalizing s with
  | zero => rfl
  | succ n ih =>
    rw [Function.iterate_succ_apply, ih]
    exact apply_restitution_snd_default _ _ _ _

theorem adjustInertias_of_pos {rd : Int} (hrd : 0 < rd) (i1 i2 : SolverBodyInertia) :
    adjustInertias rd i1 i2 = (SolverBodyInertia.default, i2) := by
  unfold adjustInertias
  rw [if_pos hrd]

theorem adjustInertias_of_neg {rd : Int} (hrd : rd < 0) (i1 i2 : SolverBodyInertia) :
    adjustInertias rd i1 i2 = (i1, SolverBodyInertia.default) := by
  unfold adjustInertias
  rw [if_neg (by omega), if_pos hrd]

theorem warmStartSystem_fst_of_pos (config : SolverConfig) (b1 b2 : SolverBody)
    (i1 i2 : SolverBodyInertia) (c : ContactConstraint)
    (hrd : 0 < c.relative_dominance) :
    (warmStartSystem config b1 b2 i1 i2 c).1 = b1 := by
  simp only [warmStartSystem, adjustInertias_of_pos hrd]
  exact warm_start_fst_default _ _ _ _ _ _

theorem warmStartSystem_snd_of_neg (config : SolverConfig) (b1 b2 : SolverBody)
    (i1 i2 : SolverBodyInertia) (c : ContactConstraint)
    (hrd : c.relative_dominance < 0) :
    (warmStartSystem config b1 b2 i1 i2 c).2 = b2 := by
  simp only [warmStartSystem, adjustInertias_of_neg hrd]
  exact warm_start_snd_default _ _ _ _ _ _

theorem solveContactsSystem_fst_of_pos (useBias : Bool) (config : SolverConfig)
    (length_unit h : Scalar) (b1 b2 : SolverBody) (i1 i2 : SolverBodyInertia)
    (c : ContactConstraint) (hrd : 0 < c.relative_dominance) :
    (solveContactsSystem useBias config length_unit h b1 b2 i1 i2 c).1.1 = b1 := by
  simp only [solveContactsSystem, adjustInertias_of_pos hrd]
  exact solve_fst_default _ _ _ _ _ _ _

theorem solveContactsSystem_snd_of_neg (useBias : Bool) (config : SolverConfig)
    (length_unit h : Scalar) (b1 b2 : SolverBody) (i1 i2 : SolverBodyInertia)
    (c : ContactConstraint) (hrd : c.relative_dominance < 0) :
    (solveContactsSystem useBias config length_unit h b1 b2 i1 i2 c).1.2 = b2 := by
  simp only [solveContactsSystem, adjustInertias_of_neg hrd]
  exact solve_snd_default _ _ _ _ _ _ _

theorem solveRestitutionSystem_fst_of_pos (config : SolverConfig)
    (length_unit : Scalar) (b1 b2 : SolverBody) (i1 i2 : SolverBodyInertia)
    (c : ContactConstraint) (hrd : 0 < c.relative_dominance) :
    (solveRestitutionSystem config length_unit b1 b2 i1 i2 c).1.1 = b1 := by
  simp only [solveRestitutionSystem, adjustInertias_of_pos hrd]
  split
  · rfl
  · exact restitution_iterate_fst_default _ _ _ _

theorem solveRestitutionSystem_snd_of_neg (config : SolverConfig)
    (length_unit : Scalar) (b1 b2 : SolverBody) (i1 i2 : SolverBodyInertia)
    (c : ContactConstraint) (hrd : c.relative_dominance < 0) :
    (solveRestitutionSystem config length_unit b1 b2 i1 i2 c).1.2 = b2 := by
  simp only [solveRestitutionSystem, adjustInertias_of_neg hrd]
  split
  · rfl
  · exact restitution_iterate_snd_default _ _ _ _

theorem Vec3.add_mk (a b c d e f : Scalar) :
    (⟨a, b, c⟩ : Vec3) + ⟨d, e, f⟩ = ⟨a + d, b + e, c + f⟩ := rfl

theorem Vec3.sub_mk (a b c d e f : Scalar) :
    (⟨a, b, c⟩ : Vec3) - ⟨d, e, f⟩ = ⟨a - d, b - e, c - f⟩ := rfl

theorem Vec3.smul_mk (s a b c : Scalar) :
    s • (⟨a, b, c⟩ : Vec3) = ⟨s * a, s * b, s * c⟩ := rfl

theorem Vec3.zero_add' (v : Vec3) : (0 : Vec3) + v = v := by
  show Vec3.add Vec3.zero v = v
  cases v
  simp [Vec3.add, Vec3.zero]

theorem Vec3.add_zero' (v : Vec3) : v + (0 : Vec3) = v := by
  show Vec3.add v Vec3.zero = v
  cases v
  simp [Vec3.add, Vec3.zero]

/-! ## Claim theorems -/

/-- C1 counterexample: with the default configuration
(`contact_frequency_factor = 1.5`), `dt = 1/60` and `h = 1/480`, the
effective contact frequency computed by `update_contact_softness` is
45, which exceeds `min(1/(2·dt), 0.25/h) = 30`: the claimed clamp
`hz ≤ min(1/(2·dt), 0.25/h)` fails. -/
theorem C1_counterexample :
    ¬ contact_hz SolverConfig.default (1 / 60) (1 / 480) ≤
        min (1 / (2 * (1 / 60 : Scalar))) (1 / 4 / (1 / 480 : Scalar)) := by
  have h45 : contact_hz SolverConfig.default (1 / 60) (1 / 480) = 45 := by
    show (3 / 2 : Scalar) * min (1 / ((1 / 60 : Scalar) * 2)) (1 / 4 / (1 / 480 : Scalar)) = 45
    have hle : (1 / ((1 / 60 : Scalar) * 2)) ≤ 1 / 4 / (1 / 480 : Scalar) := by norm_num
    rw [min_eq_left hle]
    norm_num
  have hmin : min (1 / (2 * (1 / 60 : Scalar))) (1 / 4 / (1 / 480 : Scalar)) = 30 := by
    have hle : (1 / (2 * (1 / 60 : Scalar))) ≤ 1 / 4 / (1 / 480 : Scalar) := by norm_num
    rw [min_eq_left hle]
    norm_num
  rw [h45, hmin]
  norm_num

/-- C1 (amended): the effective contact frequency is
`contact_frequency_factor · min(1/(2·dt), 0.25/h)`; the clamp
`hz ≤ min(1/(2·dt), 0.25/h)` holds whenever `contact_frequency_factor ≤ 1`,
but the factor scales the clamped value, so it fails for the default
factor 1.5. -/
theorem C1_contact_frequency (config : SolverConfig) (dt h : Scalar)
    (hdt : 0 < dt) (hh : 0 < h) :
    contact_hz config dt h =
      config.contact_frequency_factor * min (1 / (dt * 2)) (1 / 4 / h) ∧
    (config.contact_frequency_factor ≤ 1 →
      contact_hz config dt h ≤ min (1 / (dt * 2)) (1 / 4 / h)) := by
  constructor
  · rfl
  · intro hf
    have hmin : 0 ≤ min (1 / (dt * 2)) (1 / 4 / h) := by
      have h1 : 0 ≤ 1 / (dt * 2) := by positivity
      have h2 : 0 ≤ 1 / 4 / h := by positivity
      exact le_min h1 h2
    calc contact_hz config dt h
        = config.contact_frequency_factor * min (1 / (dt * 2)) (1 / 4 / h) := rfl
      _ ≤ 1 * min (1 / (dt * 2)) (1 / 4 / h) := by
          exact mul_le_mul_of_nonneg_right hf hmin
      _ = min (1 / (dt * 2)) (1 / 4 / h) := one_mul _

/-- C1 witness: the amended theorem applied at the default configuration,
`dt = 1/60`, `h = 1/480`. -/
theorem C1_witness :
    (0 : Scalar) < 1 / 60 ∧ (0 : Scalar) < 1 / 480 ∧
      contact_hz SolverConfig.default (1 / 60) (1 / 480) =
        SolverConfig.default.contact_frequency_factor *
          min (1 / ((1 / 60 : Scalar) * 2)) (1 / 4 / (1 / 480 : Scalar)) :=
  ⟨by norm_num, by norm_num,
    (C1_contact_frequency SolverConfig.default (1 / 60) (1 / 480)
      (by norm_num) (by norm_num)).1⟩

/-- C8: whenever `update_contact_softness` recomputes the coefficients, the
non-dynamic coefficients are computed from exactly double the dynamic
frequency, with the same damping ratio and the same substep time `h`. -/
theorem C8_non_dynamic_double_frequency (config : SolverConfig) (dt h : Scalar) :
    (update_contact_softness config dt h).non_dynamic =
      (SoftnessParameters.mk
        (update_contact_softness config dt h).dynamic.params.damping_ratio
        (2 * (update_contact_softness config dt h).dynamic.params.frequency)).compute_coefficients
        (update_contact_softness config dt h).dynamic.h :=
  rfl

/-- C9: within a substep, the pre-solve delta snapshot precedes the joint
solves; joints are solved in the fixed order FixedJoint, RevoluteJoint,
SphericalJoint, PrismaticJoint, DistanceJoint; and the XPBD velocity
projection (linear then angular) and joint damping run strictly after all
joint solves. -/
theorem C9_substep_joint_order :
    substepIndex .preSolveDeltaSnapshot < substepIndex (.solveXpbdJoint .fixed) ∧
    substepIndex (.solveXpbdJoint .fixed) < substepIndex (.solveXpbdJoint .revolute) ∧
    substepIndex (.solveXpbdJoint .revolute) < substepIndex (.solveXpbdJoint .spherical) ∧
    substepIndex (.solveXpbdJoint .spherical) < substepIndex (.solveXpbdJoint .prismatic) ∧
    substepIndex (.solveXpbdJoint .prismatic) < substepIndex (.solveXpbdJoint .distance) ∧
    substepIndex (.solveXpbdJoint .distance) < substepIndex .projectLinearVelocity ∧
    substepIndex .projectLinearVelocity < substepIndex .projectAngularVelocity ∧
    substepIndex .projectAngularVelocity < substepIndex (.jointDampingSystem .fixed) ∧
    substepIndex (.jointDampingSystem .fixed) < substepIndex (.jointDampingSystem .revolute) ∧
    substepIndex (.jointDampingSystem .revolute) < substepIndex (.jointDampingSystem .spherical) ∧
    substepIndex (.jointDampingSystem .spherical) < substepIndex (.jointDampingSystem .prismatic) ∧
    substepIndex (.jointDampingSystem .prismatic) < substepIndex (.jointDampingSystem .distance) := by
  decide

/-- C10: when `SolverPlugin` is built, the `PhysicsLengthUnit` resource is
set to the plugin's length unit exactly when the resource is absent or its
current value equals 1.0; an existing value different from 1.0 is left
unchanged, and an existing value of exactly 1.0 is overwritten. -/
theorem C10_length_unit (existing : Option Scalar) (plugin_unit : Scalar) :
    (existing = none → lengthUnitAfterBuild existing plugin_unit = some plugin_unit) ∧
    (existing = some 1 → lengthUnitAfterBuild existing plugin_unit = some plugin_unit) ∧
    (∀ v : Scalar, existing = some v → v ≠ 1 →
      lengthUnitAfterBuild existing plugin_unit = some v) := by
  refine ⟨fun hnone => ?_, fun hone => ?_, fun v hv hne => ?_⟩
  · simp [lengthUnitAfterBuild, hnone]
  · simp [lengthUnitAfterBuild, hone]
  · subst hv
    simp [lengthUnitAfterBuild, hne]

/-- C10 witness: the three cases at concrete values. -/
theorem C10_witness :
    (lengthUnitAfterBuild none 5 = some 5) ∧
    (lengthUnitAfterBuild (some 1) 5 = some 5) ∧
    ((2 : Scalar) ≠ 1 ∧ lengthUnitAfterBuild (some 2) 5 = some 2) :=
  ⟨(C10_length_unit none 5).1 rfl,
   (C10_length_unit (some 1) 5).2.1 rfl,
   by norm_num,
   (C10_length_unit (some 2) 5).2.2 2 rfl (by norm_num)⟩

/-- C2: for a contact constraint with positive relative dominance, the
solver systems (warm start, biased solve, relaxation solve, restitution)
replace body1's inertia by the zero dummy inertia, and body1's linear and
angular velocity are invariant under each of them; symmetrically, for
negative relative dominance body2's velocities are invariant. -/
theorem C2_dominance_dummy_inertia (config : SolverConfig) (lu h : Scalar)
    (b1 b2 : SolverBody) (i1 i2 : SolverBodyInertia) (c : ContactConstraint) :
    (0 < c.relative_dominance →
      (adjustInertias c.relative_dominance i1 i2).1 = SolverBodyInertia.default ∧
      (warmStartSystem config b1 b2 i1 i2 c).1.linear_velocity = b1.linear_velocity ∧
      (warmStartSystem config b1 b2 i1 i2 c).1.angular_velocity = b1.angular_velocity ∧
      (solveContactsSystem true config lu h b1 b2 i1 i2 c).1.1.linear_velocity =
        b1.linear_velocity ∧
      (solveContactsSystem true config lu h b1 b2 i1 i2 c).1.1.angular_velocity =
        b1.angular_velocity ∧
      (solveContactsSystem false config lu h b1 b2 i1 i2 c).1.1.linear_velocity =
        b1.linear_velocity ∧
      (solveContactsSystem false config lu h b1 b2 i1 i2 c).1.1.angular_velocity =
        b1.angular_velocity ∧
      (solveRestitutionSystem config lu b1 b2 i1 i2 c).1.1.linear_velocity =
        b1.linear_velocity ∧
      (solveRestitutionSystem config lu b1 b2 i1 i2 c).1.1.angular_velocity =
        b1.angular_velocity) ∧
    (c.relative_dominance < 0 →
      (adjustInertias c.relative_dominance i1 i2).2 = SolverBodyInertia.default ∧
      (warmStartSystem config b1 b2 i1 i2 c).2.linear_velocity = b2.linear_velocity ∧
      (warmStartSystem config b1 b2 i1 i2 c).2.angular_velocity = b2.angular_velocity ∧
      (solveContactsSystem true config lu h b1 b2 i1 i2 c).1.2.linear_velocity =
        b2.linear_velocity ∧
      (solveContactsSystem true config lu h b1 b2 i1 i2 c).1.2.angular_velocity =
        b2.angular_velocity ∧
      (solveContactsSystem false config lu h b1 b2 i1 i2 c).1.2.linear_velocity =
        b2.linear_velocity ∧
      (solveContactsSystem false config lu h b1 b2 i1 i2 c).1.2.angular_velocity =
        b2.angular_velocity ∧
      (solveRestitutionSystem config lu b1 b2 i1 i2 c).1.2.linear_velocity =
        b2.linear_velocity ∧
      (solveRestitutionSystem config lu b1 b2 i1 i2 c).1.2.angular_velocity =
        b2.angular_velocity) := by
  constructor
  · intro hrd
    have hw := warmStartSystem_fst_of_pos config b1 b2 i1 i2 c hrd
    have hst := solveContactsSystem_fst_of_pos true config lu h b1 b2 i1 i2 c hrd
    have hsf := solveContactsSystem_fst_of_pos false config lu h b1 b2 i1 i2 c hrd
    have hr := solveRestitutionSystem_fst_of_pos config lu b1 b2 i1 i2 c hrd
    rw [adjustInertias_of_pos hrd, hw, hst, hsf, hr]
    exact ⟨rfl, rfl, rfl, rfl, rfl, rfl, rfl, rfl, rfl⟩
  · intro hrd
    have hw := warmStartSystem_snd_of_neg config b1 b2 i1 i2 c hrd
    have hst := solveContactsSystem_snd_of_neg true config lu h b1 b2 i1 i2 c hrd
    have hsf := solveContactsSystem_snd_of_neg false config lu h b1 b2 i1 i2 c hrd
    have hr := solveRestitutionSystem_snd_of_neg config lu b1 b2 i1 i2 c hrd
    rw [adjustInertias_of_neg hrd, hw, hst, hsf, hr]
    exact ⟨rfl, rfl, rfl, rfl, rfl, rfl, rfl, rfl, rfl⟩

/-- C2 witness: both dominance cases at a concrete one-point constraint. -/
theorem C2_dominance_witness :
    (0 < ({ exampleWarmConstraint with relative_dominance := 1 } :
        ContactConstraint).relative_dominance ∧
      (warmStartSystem SolverConfig.default SolverBody.default SolverBody.default
          exampleDynInertia exampleDynInertia
          { exampleWarmConstraint with relative_dominance := 1 }).1.linear_velocity =
        SolverBody.default.linear_velocity) ∧
    (({ exampleWarmConstraint with relative_dominance := -1 } :
        ContactConstraint).relative_dominance < 0 ∧
      (warmStartSystem SolverConfig.default SolverBody.default SolverBody.default
          exampleDynInertia exampleDynInertia
          { exampleWarmConstraint with relative_dominance := -1 }).2.linear_velocity =
        SolverBody.default.linear_velocity) :=
  ⟨⟨by decide,
    ((C2_dominance_dummy_inertia SolverConfig.default 1 1 SolverBody.default
        SolverBody.default exampleDynInertia exampleDynInertia
        { exampleWarmConstraint with relative_dominance := 1 }).1 (by decide)).2.1⟩,
   ⟨by decide,
    ((C2_dominance_dummy_inertia SolverConfig.default 1 1 SolverBody.default
        SolverBody.default exampleDynInertia exampleDynInertia
        { exampleWarmConstraint with relative_dominance := -1 }).2 (by decide)).2.1⟩⟩

/-- C3 counterexample: two dynamic bodies joined by a joint with angular
damping 1, body1 dominance 1, body2 dominance 0. Although body1 has the
strictly higher dominance, `joint_damping` changes its angular velocity:
the dominance guard protects only the linear update. -/
theorem C3_counterexample :
    ((⟨true, Vec3.zero, Vec3.zero, 1, some 1⟩ : JointBody).dynamic = true) ∧
    ((⟨true, Vec3.zero, ⟨1, 0, 0⟩, 1, some 0⟩ : JointBody).dynamic = true) ∧
    ((⟨true, Vec3.zero, ⟨1, 0, 0⟩, 1, some 0⟩ : JointBody).dominance.getD 0 <
      (⟨true, Vec3.zero, Vec3.zero, 1, some 1⟩ : JointBody).dominance.getD 0) ∧
    (jointDamping ⟨1, 1⟩ 1 ⟨true, Vec3.zero, Vec3.zero, 1, some 1⟩
        ⟨true, Vec3.zero, ⟨1, 0, 0⟩, 1, some 0⟩).1.ang_vel ≠
      (⟨true, Vec3.zero, Vec3.zero, 1, some 1⟩ : JointBody).ang_vel := by
  refine ⟨rfl, rfl, by decide, ?_⟩
  have heps : ¬((1 : Scalar) + 1 ≤ machineEpsilon) := by
    rw [machineEpsilon]
    norm_num
  simp only [jointDamping, Option.getD_some]
  rw [if_neg]
  · simp only [Vec3.zero, Vec3.sub_mk, Vec3.smul_mk, Vec3.add_mk]
    intro hcontra
    rw [Vec3.mk.injEq] at hcontra
    have hx := hcontra.1
    have hmin : (1 : Scalar) * 1 ⊓ 1 = 1 := by rw [one_mul, min_self]
    simp only [if_true, hmin] at hx
    norm_num at hx
  · simpa using heps

/-- C3 (amended): in `joint_damping`, for a joint between two dynamic bodies
where body1's dominance is strictly greater than body2's, body1's linear
velocity is unchanged; body1's angular velocity is however damped toward
body2's regardless of dominance. -/
theorem C3_joint_damping_dominance (joint : JointDamping) (delta_secs : Scalar)
    (b1 b2 : JointBody)
    (h1 : b1.dynamic = true) (h2 : b2.dynamic = true)
    (hd : b2.dominance.getD 0 < b1.dominance.getD 0) :
    (jointDamping joint delta_secs b1 b2).1.lin_vel = b1.lin_vel ∧
    (jointDamping joint delta_secs b1 b2).1.ang_vel =
      b1.ang_vel + min (joint.damping_angular * delta_secs) 1 • (b2.ang_vel - b1.ang_vel) := by
  simp only [jointDamping, h1, h2, if_true]
  constructor
  · split
    · rfl
    · show (if _ ∧ _ then _ else b1.lin_vel) = b1.lin_vel
      rw [if_neg]
      rintro ⟨-, hb | hle⟩
      · simp at hb
      · omega
  · split
    · rfl
    · rfl

/-- C3 witness: the amended theorem at a concrete joint and body pair. -/
theorem C3_joint_damping_dominance_witness :
    ((⟨true, Vec3.zero, Vec3.zero, 1, some 1⟩ : JointBody).dynamic = true) ∧
    ((⟨true, ⟨1, 0, 0⟩, Vec3.zero, 1, some 0⟩ : JointBody).dynamic = true) ∧
    ((⟨true, ⟨1, 0, 0⟩, Vec3.zero, 1, some 0⟩ : JointBody).dominance.getD 0 <
      (⟨true, Vec3.zero, Vec3.zero, 1, some 1⟩ : JointBody).dominance.getD 0) ∧
    (jointDamping ⟨1, 0⟩ 1 ⟨true, Vec3.zero, Vec3.zero, 1, some 1⟩
        ⟨true, ⟨1, 0, 0⟩, Vec3.zero, 1, some 0⟩).1.lin_vel =
      (⟨true, Vec3.zero, Vec3.zero, 1, some 1⟩ : JointBody).lin_vel :=
  ⟨rfl, rfl, by decide,
    (C3_joint_damping_dominance ⟨1, 0⟩ 1 ⟨true, Vec3.zero, Vec3.zero, 1, some 1⟩
      ⟨true, ⟨1, 0, 0⟩, Vec3.zero, 1, some 0⟩ rfl rfl (by decide)).1⟩

/-- C6 counterexample: two dynamic bodies with zero inverse mass (so
`w1 + w2 = 0 ≤ ε`) and differing angular velocities. `joint_damping` does
not skip the update entirely: the angular damping has already been applied
before the near-zero-mass check, so body1's angular velocity changes. -/
theorem C6_counterexample :
    ((if (⟨true, Vec3.zero, Vec3.zero, 0, none⟩ : JointBody).dynamic then
        (⟨true, Vec3.zero, Vec3.zero, 0, none⟩ : JointBody).inv_mass else 0) +
      (if (⟨true, Vec3.zero, ⟨1, 0, 0⟩, 0, none⟩ : JointBody).dynamic then
        (⟨true, Vec3.zero, ⟨1, 0, 0⟩, 0, none⟩ : JointBody).inv_mass else 0) ≤
        machineEpsilon) ∧
    (jointDamping ⟨1, 1⟩ 1 ⟨true, Vec3.zero, Vec3.zero, 0, none⟩
        ⟨true, Vec3.zero, ⟨1, 0, 0⟩, 0, none⟩).1.ang_vel ≠
      (⟨true, Vec3.zero, Vec3.zero, 0, none⟩ : JointBody).ang_vel := by
  constructor
  · show (0 : Scalar) + 0 ≤ machineEpsilon
    rw [machineEpsilon]
    norm_num
  · simp only [jointDamping]
    rw [if_pos]
    · simp only [Vec3.zero, Vec3.sub_mk, Vec3.smul_mk, Vec3.add_mk]
      intro hcontra
      rw [Vec3.mk.injEq] at hcontra
      have hx := hcontra.1
      have hmin : (1 : Scalar) * 1 ⊓ 1 = 1 := by rw [one_mul, min_self]
      simp only [if_true, hmin] at hx
      norm_num at hx
    · show (0 : Scalar) + 0 ≤ machineEpsilon
      rw [machineEpsilon]
      norm_num

/-- C6 (amended): when the combined inverse mass computed by
`joint_damping` is at most ε, the linear velocity update is skipped for
both bodies (their linear velocities are unchanged); the angular damping
update has already been applied at that point and is not skipped. -/
theorem C6_near_zero_mass_skip (joint : JointDamping) (delta_secs : Scalar)
    (b1 b2 : JointBody)
    (heps : (if b1.dynamic then b1.inv_mass else 0) +
        (if b2.dynamic then b2.inv_mass else 0) ≤ machineEpsilon) :
    (jointDamping joint delta_secs b1 b2).1.lin_vel = b1.lin_vel ∧
    (jointDamping joint delta_secs b1 b2).2.lin_vel = b2.lin_vel := by
  simp only [jointDamping]
  rw [if_pos heps]
  exact ⟨rfl, rfl⟩

/-- C6 witness: the amended theorem at a concrete joint and body pair. -/
theorem C6_near_zero_mass_witness :
    ((if (⟨true, Vec3.zero, Vec3.zero, 0, none⟩ : JointBody).dynamic then
        (⟨true, Vec3.zero, Vec3.zero, 0, none⟩ : JointBody).inv_mass else 0) +
      (if (⟨true, ⟨2, 0, 0⟩, Vec3.zero, 0, none⟩ : JointBody).dynamic then
        (⟨true, ⟨2, 0, 0⟩, Vec3.zero, 0, none⟩ : JointBody).inv_mass else 0) ≤
        machineEpsilon) ∧
    (jointDamping ⟨1, 1⟩ 1 ⟨true, Vec3.zero, Vec3.zero, 0, none⟩
        ⟨true, ⟨2, 0, 0⟩, Vec3.zero, 0, none⟩).1.lin_vel =
      (⟨true, Vec3.zero, Vec3.zero, 0, none⟩ : JointBody).lin_vel := by
  have heps : (if (⟨true, Vec3.zero, Vec3.zero, 0, none⟩ : JointBody).dynamic then
      (⟨true, Vec3.zero, Vec3.zero, 0, none⟩ : JointBody).inv_mass else 0) +
      (if (⟨true, ⟨2, 0, 0⟩, Vec3.zero, 0, none⟩ : JointBody).dynamic then
        (⟨true, ⟨2, 0, 0⟩, Vec3.zero, 0, none⟩ : JointBody).inv_mass else 0) ≤
        machineEpsilon := by
    show (0 : Scalar) + 0 ≤ machineEpsilon
    rw [machineEpsilon]
    norm_num
  exact ⟨heps,
    (C6_near_zero_mass_skip ⟨1, 1⟩ 1 ⟨true, Vec3.zero, Vec3.zero, 0, none⟩
      ⟨true, ⟨2, 0, 0⟩, Vec3.zero, 0, none⟩ heps).1⟩

theorem storePoints_length :
    ∀ (ms : List ContactPoint) (cs : List ContactConstraintPoint),
      (storePoints ms cs).length = ms.length := by
  intro ms
  induction ms with
  | nil => intro cs; cases cs <;> rfl
  | cons m ms ih =>
    intro cs
    cases cs with
    | nil => rfl
    | cons cp cps => simp [storePoints, ih]

theorem storePoints_get :
    ∀ (i : Nat) (ms : List ContactPoint) (cs : List ContactConstraintPoint)
      (h1 : i < ms.length) (h2 : i < cs.length),
      (storePoints ms cs)[i]? =
        some { ms.get ⟨i, h1⟩ with
                normal_impulse := (cs.get ⟨i, h2⟩).normal_part.impulse
                tangent_impulse := (cs.get ⟨i, h2⟩).accumulatedTangentImpulse } := by
  intro i
  induction i with
  | zero =>
    intro ms cs h1 h2
    cases ms with
    | nil => simp at h1
    | cons m ms =>
      cases cs with
      | nil => simp at h2
      | cons cp cps => simp [storePoints]
  | succ i ih =>
    intro ms cs h1 h2
    cases ms with
    | nil => simp at h1
    | cons m ms =>
      cases cs with
      | nil => simp at h2
      | cons cp cps =>
        simpa [storePoints] using
          ih ms cps (by simpa using h1) (by simpa using h2)

/-- C4: `store_contact_impulses` preserves the number of manifold points,
and the manifold point at each valid index receives exactly the
corresponding constraint point's accumulated normal impulse and
accumulated tangent impulse. -/
theorem C4_store_contact_impulses (c : ContactConstraint) (m : ContactManifold)
    (i : Nat) (h1 : i < m.points.length) (h2 : i < c.points.length) :
    (storeContactImpulsesManifold c m).points.length = m.points.length ∧
    (storeContactImpulsesManifold c m).points[i]? =
      some { m.points.get ⟨i, h1⟩ with
              normal_impulse := (c.points.get ⟨i, h2⟩).normal_part.impulse
              tangent_impulse := (c.points.get ⟨i, h2⟩).accumulatedTangentImpulse } :=
  ⟨storePoints_length m.points c.points, storePoints_get i m.points c.points h1 h2⟩

/-- C4 witness: a concrete one-point manifold and constraint. -/
theorem C4_store_contact_impulses_witness :
    0 < exampleManifold.points.length ∧ 0 < exampleWarmConstraint.points.length ∧
    (storeContactImpulsesManifold exampleWarmConstraint exampleManifold).points[0]? =
      some { exampleManifold.points.get ⟨0, by decide⟩ with
              normal_impulse :=
                (exampleWarmConstraint.points.get ⟨0, by decide⟩).normal_part.impulse
              tangent_impulse :=
                (exampleWarmConstraint.points.get ⟨0, by decide⟩).accumulatedTangentImpulse } :=
  ⟨by decide, by decide,
    (C4_store_contact_impulses exampleWarmConstraint exampleManifold 0
      (by decide) (by decide)).2⟩

/-- C5 counterexample: a constraint with restitution `−1` (hence not
`> 0`) and an accumulated normal impulse is not skipped by
`solve_restitution`: the solve changes body2's velocity. The code skips
only `restitution == 0`. -/
theorem C5_counterexample :
    exampleNegRestitutionConstraint.restitution ≤ 0 ∧
    (solveRestitutionSystem SolverConfig.default 1 SolverBody.default SolverBody.default
        SolverBodyInertia.default exampleDynInertia
        exampleNegRestitutionConstraint).1.2.linear_velocity ≠
      SolverBody.default.linear_velocity := by
  constructor
  · show (-1 : Scalar) ≤ 0
    norm_num
  · have heval :
        (solveRestitutionSystem SolverConfig.default 1 SolverBody.default SolverBody.default
            SolverBodyInertia.default exampleDynInertia
            exampleNegRestitutionConstraint).1.2.linear_velocity = ⟨-5, 0, 0⟩ := by
      norm_num [solveRestitutionSystem, exampleNegRestitutionConstraint,
        exampleWarmConstraint, adjustInertias, ContactConstraint.apply_restitution,
        restitutionPoints, applyRestitutionPoint, applyImpulse, SolverConfig.default,
        SolverBodyInertia.default, exampleDynInertia, SolverBody.default,
        Vec3.zero_add', Vec3.add_zero', Vec3.zero_eq, Vec3.zero,
        Vec3.sub_mk, Vec3.add_mk, Vec3.smul_mk, Mat3.mulVec, Mat3.zero, Vec3.dot,
        Vec3.cross]
    rw [heval]
    show ¬(⟨-5, 0, 0⟩ : Vec3) = Vec3.zero
    rw [Vec3.zero, Vec3.mk.injEq]
    norm_num

/-- C5 (amended): restitution runs once per physics step after the substep
loop; `solve_restitution` skips exactly the constraints whose restitution
equals 0 (so negative restitution is also processed), and for the others
performs `restitution_iterations` iterations of `apply_restitution` when
the constraint has more than one contact point, and exactly one iteration
otherwise. -/
theorem C5_restitution_iterations (config : SolverConfig) (length_unit : Scalar)
    (b1 b2 : SolverBody) (i1 i2 : SolverBodyInertia) (c : ContactConstraint) :
    (physicsStepPhases.count .restitution = 1 ∧
      physicsStepPhases.findIdx (· == PhysicsPhase.substepLoop) <
        physicsStepPhases.findIdx (· == PhysicsPhase.restitution)) ∧
    (c.restitution = 0 →
      solveRestitutionSystem config length_unit b1 b2 i1 i2 c = ((b1, b2), c)) ∧
    (c.restitution ≠ 0 →
      solveRestitutionSystem config length_unit b1 b2 i1 i2 c =
        (fun s => s.2.apply_restitution s.1
            (adjustInertias c.relative_dominance i1 i2).1
            (adjustInertias c.relative_dominance i1 i2).2
            (config.restitution_threshold * length_unit))^[
          if 1 < c.points.length then config.restitution_iterations else 1]
          ((b1, b2), c)) := by
  refine ⟨by decide, fun h0 => ?_, fun hne => ?_⟩
  · simp only [solveRestitutionSystem]
    rw [if_pos h0]
  · simp only [solveRestitutionSystem]
    rw [if_neg hne]

/-- C5 witness: the zero-restitution case and the nonzero case at concrete
constraints. -/
theorem C5_restitution_witness :
    (exampleWarmConstraint.restitution = 0 ∧
      solveRestitutionSystem SolverConfig.default 1 SolverBody.default SolverBody.default
          SolverBodyInertia.default exampleDynInertia exampleWarmConstraint =
        ((SolverBody.default, SolverBody.default), exampleWarmConstraint)) ∧
    (exampleNegRestitutionConstraint.restitution ≠ 0 ∧
      solveRestitutionSystem SolverConfig.default 1 SolverBody.default SolverBody.default
          SolverBodyInertia.default exampleDynInertia exampleNegRestitutionConstraint =
        (fun s => s.2.apply_restitution s.1
            (adjustInertias exampleNegRestitutionConstraint.relative_dominance
              SolverBodyInertia.default exampleDynInertia).1
            (adjustInertias exampleNegRestitutionConstraint.relative_dominance
              SolverBodyInertia.default exampleDynInertia).2
            (SolverConfig.default.restitution_threshold * 1))^[
          if 1 < exampleNegRestitutionConstraint.points.length then
            SolverConfig.default.restitution_iterations else 1]
          ((SolverBody.default, SolverBody.default), exampleNegRestitutionConstraint)) :=
  ⟨⟨rfl,
    (C5_restitution_iterations SolverConfig.default 1 SolverBody.default SolverBody.default
        SolverBodyInertia.default exampleDynInertia exampleWarmConstraint).2.1 rfl⟩,
   ⟨by norm_num [exampleNegRestitutionConstraint, exampleWarmConstraint],
    (C5_restitution_iterations SolverConfig.default 1 SolverBody.default SolverBody.default
        SolverBodyInertia.default exampleDynInertia exampleNegRestitutionConstraint).2.2
      (by norm_num [exampleNegRestitutionConstraint, exampleWarmConstraint])⟩⟩

/-- C7 counterexample: with `warm_start_coefficient = 1.5`, the coefficient
passed by `warm_start` to the constraint is 1.5, outside `[0, 1]`, and the
unclamped value reaches the bodies: warm starting a unit normal impulse
gives body2 the linear velocity `(1.5, 0, 0)`. -/
theorem C7_counterexample :
    warmStartAppliedCoefficient
        { SolverConfig.default with warm_start_coefficient := 3 / 2 } = 3 / 2 ∧
    (¬ warmStartAppliedCoefficient
        { SolverConfig.default with warm_start_coefficient := 3 / 2 } ≤ 1) ∧
    (warmStartSystem { SolverConfig.default with warm_start_coefficient := 3 / 2 }
        SolverBody.default SolverBody.default SolverBodyInertia.default exampleDynInertia
        exampleWarmConstraint).2.linear_velocity = ⟨3 / 2, 0, 0⟩ := by
  refine ⟨rfl, ?_, ?_⟩
  · show ¬(3 / 2 : Scalar) ≤ 1
    norm_num
  · norm_num [warmStartSystem, warmStartAppliedCoefficient,
      ContactConstraint.warm_start, warmStartPoint, applyImpulse, adjustInertias,
      ContactConstraint.tangent_directions, pointTangents, exampleWarmConstraint,
      exampleDynInertia, SolverBody.default, SolverBodyInertia.default,
      SolverConfig.default, Vec3.zero_add', Vec3.add_zero', Vec3.zero, Vec3.zero_eq,
      Vec3.sub_mk, Vec3.add_mk, Vec3.smul_mk, Mat3.mulVec, Mat3.zero, Vec3.dot,
      Vec3.cross]

/-- C7 (amended): `warm_start` applies no clamping: the coefficient passed
to each constraint's warm start is exactly
`SolverConfig.warm_start_coefficient`, so it lies in `[0, 1]` exactly when
the configured value already does. -/
theorem C7_warm_start_coefficient (config : SolverConfig) (b1 b2 : SolverBody)
    (i1 i2 : SolverBodyInertia) (c : ContactConstraint)
    (h0 : 0 ≤ config.warm_start_coefficient)
    (h1 : config.warm_start_coefficient ≤ 1) :
    warmStartAppliedCoefficient config = config.warm_start_coefficient ∧
    (0 ≤ warmStartAppliedCoefficient config ∧
      warmStartAppliedCoefficient config ≤ 1) ∧
    warmStartSystem config b1 b2 i1 i2 c =
      c.warm_start b1 b2 (adjustInertias c.relative_dominance i1 i2).1
        (adjustInertias c.relative_dominance i1 i2).2
        (c.tangent_directions b1.linear_velocity b2.linear_velocity)
        config.warm_start_coefficient :=
  ⟨rfl, ⟨h0, h1⟩, rfl⟩

/-- C7 witness: the amended theorem at the default configuration. -/
theorem C7_warm_start_coefficient_witness :
    (0 : Scalar) ≤ SolverConfig.default.warm_start_coefficient ∧
    SolverConfig.default.warm_start_coefficient ≤ 1 ∧
    warmStartAppliedCoefficient SolverConfig.default =
      SolverConfig.default.warm_start_coefficient :=
  ⟨by norm_num [SolverConfig.default], by norm_num [SolverConfig.default],
    (C7_warm_start_coefficient SolverConfig.default SolverBody.default SolverBody.default
      SolverBodyInertia.default SolverBodyInertia.default exampleWarmConstraint
      (by norm_num [SolverConfig.default]) (by norm_num [SolverConfig.default])).1⟩

end Avian
